/-
Verification of the incident_agent repository: a shallow embedding of the
ReAct incident-diagnosis loop (src/agent/react_agent.py), its state
(src/agent/state.py), and the four diagnostic tools (src/tools/*.py),
together with theorems checking the specification's claims about them.

Modelling conventions:
- Python dicts with a known key set become structures whose fields are
  `Option`-valued; a field equal to `none` models an absent key, and an
  indexing operation `d["k"]` on a possibly-absent key becomes a `match`
  whose `none` branch models the raised `KeyError`.
- The JSON data files backing the tools become a `ToolEnv` of lookup
  functions `String → Option _` (Python `dict.get`).
- The external model (oracle) becomes a function from the current state to a
  raw response, which either fails JSON decoding or yields a decision dict.
- Raised exceptions become an error component threaded through the run:
  `run` returns the final state together with `Option RunError`; `some e`
  models the run terminating by raising `e`, with the state as mutated up to
  the raise point (the caller holds the state reference in Python).
- The `while` loop of `ReActAgent.run` becomes fuel-based recursion with
  fuel `max_steps - state.steps`: every iteration that does not leave the
  loop increments `state.steps` by exactly one, so this fuel is never
  exhausted before the loop condition `state.steps < max_steps` fails.
-/
import Mathlib

namespace IncidentAgent

/-! ## Tool data model (src/tools/*.py) -/

/-- A metrics record from data/metrics.json, as read by `_summarize` and
`_print_trace` (fields `cpu_percent`, `latency_ms`). -/
structure Metrics where
  cpu_percent : Int
  latency_ms : Int
deriving Repr, DecidableEq

/-- One log line from data/logs.json; `check_logs` reads `l["level"]`. -/
structure LogRecord where
  level : String
  message : String
deriving Repr, DecidableEq

/-- A deployment record from data/deployments.json. -/
structure Deployment where
  version : String
deriving Repr, DecidableEq

/-- A per-service record from data/dependencies.json: `depends_on` plus the
`dependency_health` mapping (modelled as an association list in file order). -/
structure DepsRecord where
  depends_on : List String
  dependency_health : List (String × String)
deriving Repr, DecidableEq

/-- The result dict returned by a tool. Each field models one possible key;
`none` models the key being absent from the dict the tool built. -/
structure ToolResult where
  ok : Bool
  error : Option String := none
  service : Option String := none
  metrics : Option Metrics := none
  error_count : Option Nat := none
  recent_errors : Option (List LogRecord) := none
  deployment : Option Deployment := none
  dependencies : Option (List String) := none
  degraded_dependencies : Option (List String) := none
deriving Repr, DecidableEq

/-- The backing JSON data files, one lookup per tool (`data.get(service)`). -/
structure ToolEnv where
  metricsData : String → Option Metrics
  logsData : String → Option (List LogRecord)
  deploymentsData : String → Option Deployment
  dependenciesData : String → Option DepsRecord

/-- src/tools/metrics.py `check_metrics`. -/
def check_metrics (env : ToolEnv) (service : String) : ToolResult :=
  match env.metricsData service with
  | none => { ok := false, error := some "Service not found" }
  | some metrics =>
      { ok := true, service := some service, metrics := some metrics }

/-- src/tools/logs.py `check_logs`. A missing service defaults to an empty
log list (`data.get(service, [])`), so this tool always returns `ok := true`. -/
def check_logs (env : ToolEnv) (service : String) : ToolResult :=
  let logs := (env.logsData service).getD []
  let error_logs := logs.filter (fun l => l.level == "ERROR")
  { ok := true
    service := some service
    error_count := some error_logs.length
    recent_errors := some (error_logs.take 3) }

/-- src/tools/deployments.py `check_deployments`. -/
def check_deployments (env : ToolEnv) (service : String) : ToolResult :=
  match env.deploymentsData service with
  | none => { ok := false, error := some "No deployment info" }
  | some deployment =>
      { ok := true, service := some service, deployment := some deployment }

/-- src/tools/dependencies.py `check_dependencies`. -/
def check_dependencies (env : ToolEnv) (service : String) : ToolResult :=
  match env.dependenciesData service with
  | none => { ok := false, error := some "No dependency data" }
  | some deps =>
      let degraded :=
        (deps.dependency_health.filter (fun p => p.2 != "healthy")).map Prod.fst
      { ok := true
        service := some service
        dependencies := some deps.depends_on
        degraded_dependencies := some degraded }

/-- The fixed tool registry `TOOLS` of src/agent/react_agent.py, as an
association list in source order. -/
def TOOLS : List (String × (ToolEnv → String → ToolResult)) :=
  [("check_metrics", check_metrics),
   ("check_logs", check_logs),
   ("check_deployments", check_deployments),
   ("check_dependencies", check_dependencies)]

/-! ## Agent state and decisions (src/agent/state.py, react_agent.py) -/

/-- The `args` dict of an action; `service` is the only key the tools accept
(`tool_fn(**args)` fails for any other shape). -/
structure ArgsDict where
  service : Option String := none
deriving Repr, DecidableEq

/-- The `action` dict of a decision: keys `tool` and `args`. -/
structure ActionDict where
  tool : Option String := none
  args : Option ArgsDict := none
deriving Repr, DecidableEq

/-- Python truthiness of the `action` dict (`if not action`): a dict is
truthy iff it is non-empty, i.e. at least one key is present. -/
def ActionDict.isTruthy (a : ActionDict) : Bool :=
  a.tool.isSome || a.args.isSome

/-- The decision dict decoded from the model's JSON response: keys
`thought`, `action`, `conclusion`, `done` (each possibly absent). -/
structure DecisionDict where
  thought : Option String := none
  action : Option ActionDict := none
  conclusion : Option String := none
  done : Option Bool := none
deriving Repr, DecidableEq

/-- Python truthiness of `decision.get("done")`. -/
def truthyDone : Option Bool → Bool
  | some true => true
  | _ => false

/-- Python truthiness of `action` at its use site `if not action: break`
(covers both an absent key and an empty dict). -/
def actionTruthy : Option ActionDict → Bool
  | none => false
  | some a => a.isTruthy

/-- A raw model response: either text that fails `json.loads`, or a decoded
decision dict. -/
inductive Raw where
  | invalid (text : String)
  | decision (d : DecisionDict)

/-- One observation record appended by step 5 of `ReActAgent.run`. -/
structure Observation where
  step : Nat
  thought : Option String
  tool : String
  args : ArgsDict
  result : ToolResult
deriving Repr, DecidableEq

/-- src/agent/state.py `AgentState`. `conclusion := none` models Python
`None`. -/
structure AgentState where
  goal : String
  service : String
  observations : List Observation := []
  steps : Nat := 0
  done : Bool := false
  conclusion : Option String := none
deriving Repr, DecidableEq

/-- A freshly constructed `AgentState(goal=..., service=...)`. -/
def AgentState.init (goal service : String) : AgentState :=
  { goal := goal, service := service }

/-- Python truthiness of `state.conclusion` (`if not state.conclusion`):
false for `None` and for the empty string. -/
def truthyOpt : Option String → Bool
  | none => false
  | some s => !s.isEmpty

/-- The exceptions `ReActAgent.run` can raise. -/
inductive RunError where
  | valueError (msg : String)
  | typeError (msg : String)
  | keyError (key : String)
deriving Repr, DecidableEq

/-- Python rendering of an optional tool name inside the
`Unknown tool requested by agent:` message (`None` when absent). -/
def optToolStr : Option String → String
  | none => "None"
  | some t => t

/-! ## Evidence policy and summarizer -/

/-- `ReActAgent._enough_evidence`: `tools_used` is the set of distinct tool
names (modelled as the deduplicated list, whose length is the set's size). -/
def enough_evidence (observations : List Observation) : Bool :=
  let tools_used := (observations.map (fun obs => obs.tool)).dedup
  decide ("check_metrics" ∈ tools_used) &&
  decide ("check_logs" ∈ tools_used) &&
  decide (3 ≤ tools_used.length)

/-- The clauses `_summarize` appends for one observation; `Except.error k`
models the `KeyError` raised when the result dict lacks key `k`. -/
def clausesOf (obs : Observation) : Except String (List String) :=
  if obs.tool = "check_metrics" then
    match obs.result.metrics with
    | none => Except.error "metrics"
    | some metrics =>
        Except.ok ((if metrics.cpu_percent > 80 then ["High CPU usage detected."] else []) ++
          (if metrics.latency_ms > 500 then ["High service latency observed."] else []))
  else if obs.tool = "check_logs" then
    match obs.result.error_count with
    | none => Except.error "error_count"
    | some c => Except.ok (if c > 0 then ["Application errors found in logs."] else [])
  else if obs.tool = "check_deployments" then
    Except.ok ["Recent deployment detected."]
  else if obs.tool = "check_dependencies" then
    match obs.result.degraded_dependencies with
    | none => Except.error "degraded_dependencies"
    | some ds =>
        Except.ok (if ds.isEmpty then []
          else ["Degraded dependency: " ++ String.intercalate ", " ds])
  else Except.ok []

/-- The `summary` list built by `_summarize`'s loop, in observation order;
the first missing key aborts the whole fold, as the Python loop would. -/
def clauses : List Observation → Except String (List String)
  | [] => Except.ok []
  | obs :: rest =>
      match clausesOf obs with
      | Except.error k => Except.error k
      | Except.ok cs =>
          match clauses rest with
          | Except.error k => Except.error k
          | Except.ok more => Except.ok (cs ++ more)

/-- `ReActAgent._summarize` over `state.observations`:
`"Likely root cause: " + " ".join(summary)`. -/
def summarize (observations : List Observation) : Except String String :=
  match clauses observations with
  | Except.error k => Except.error k
  | Except.ok summary =>
      Except.ok ("Likely root cause: " ++ String.intercalate " " summary)

/-- True when `summarize` would raise a `KeyError`. -/
def raisesKeyError : Except String String → Bool
  | Except.error _ => true
  | Except.ok _ => false

/-! ## The ReAct loop (ReActAgent.run) -/

/-- Outcome of one iteration of the `while` body: leave the loop normally
(`break` or the two stop branches), raise an exception, or continue. -/
inductive StepOutcome where
  | exitLoop (state : AgentState)
  | fatal (state : AgentState) (e : RunError)
  | next (state : AgentState)

/-- The state carried by a `StepOutcome`, whichever constructor. -/
def StepOutcome.state : StepOutcome → AgentState
  | .exitLoop s => s
  | .fatal s _ => s
  | .next s => s

/-- One iteration of the `while` body of `ReActAgent.run` (steps 1-6 of the
source), given that the loop condition holds. -/
def runStep (env : ToolEnv) (oracle : AgentState → Raw) (state : AgentState) :
    StepOutcome :=
  match oracle state with
  | Raw.invalid text =>
      StepOutcome.fatal state
        (RunError.valueError ("Invalid JSON from model:\n" ++ text))
  | Raw.decision decision =>
      if truthyDone decision.done then
        StepOutcome.exitLoop
          { state with
            done := true
            conclusion :=
              some (decision.conclusion.getD "Incident analysis completed by agent.") }
      else
        match decision.action with
        | none => StepOutcome.exitLoop state
        | some action =>
            if action.isTruthy = false then StepOutcome.exitLoop state
            else
            match action.tool with
            | none =>
                StepOutcome.fatal state
                  (RunError.valueError ("Unknown tool requested by agent: " ++ optToolStr none))
            | some tname =>
                match TOOLS.find? (fun p => p.1 == tname) with
                | none =>
                    StepOutcome.fatal state
                      (RunError.valueError ("Unknown tool requested by agent: " ++ tname))
                | some pair =>
                    let args := action.args.getD {}
                    match args.service with
                    | none =>
                        StepOutcome.fatal state
                          (RunError.typeError "missing required argument: service")
                    | some svc =>
                        let result := pair.2 env svc
                        let obs : Observation :=
                          { step := state.steps + 1
                            thought := decision.thought
                            tool := tname
                            args := args
                            result := result }
                        let state' : AgentState :=
                          { state with
                            observations := state.observations ++ [obs]
                            steps := state.steps + 1 }
                        if enough_evidence state'.observations then
                          match summarize state'.observations with
                          | Except.error k =>
                              StepOutcome.fatal { state' with done := true }
                                (RunError.keyError k)
                          | Except.ok c =>
                              StepOutcome.exitLoop
                                { state' with done := true, conclusion := some c }
                        else StepOutcome.next state'

/-- The `while not state.done and state.steps < max_steps` loop, fuel-based.
The second result component models a propagating exception. -/
def runLoop (env : ToolEnv) (oracle : AgentState → Raw) (max_steps : Nat) :
    Nat → AgentState → AgentState × Option RunError
  | 0, state => (state, none)
  | fuel + 1, state =>
      if state.done = true ∨ ¬ state.steps < max_steps then (state, none)
      else
        match runStep env oracle state with
        | StepOutcome.exitLoop s => (s, none)
        | StepOutcome.fatal s e => (s, some e)
        | StepOutcome.next s => runLoop env oracle max_steps fuel s

/-- `ReActAgent.run`: the loop followed by the final fallback
`if not state.conclusion: state.conclusion = self._summarize(state)`. -/
def run (env : ToolEnv) (oracle : AgentState → Raw) (state : AgentState)
    (max_steps : Nat) : AgentState × Option RunError :=
  match runLoop env oracle max_steps (max_steps - state.steps) state with
  | (s, some e) => (s, some e)
  | (s, none) =>
      if truthyOpt s.conclusion then (s, none)
      else
        match summarize s.observations with
        | Except.error k => (s, some (RunError.keyError k))
        | Except.ok c => ({ s with conclusion := some c }, none)

/-! ## Derived definitions used to state the claims -/

/-- The conclusion the run returns when the summarizer succeeds (`none`
models the run raising before any conclusion is stored). -/
def summaryToConclusion : Except String String → Option String
  | Except.ok t => some t
  | Except.error _ => none

/-- The error the run raises when the summarizer fails. -/
def summaryToError : Except String String → Option RunError
  | Except.ok _ => none
  | Except.error k => some (RunError.keyError k)

/-- The final conclusion after a finish decision, as the code computes it:
the supplied text when non-empty, the default placeholder when the
`conclusion` key is absent, and the fallback summarizer's output when the
supplied text is the empty string (the summarizer's failure leaves the
stored empty string in place while the run raises). -/
def finishConclusion (supplied : Option String) (fallback : Except String String) :
    Option String :=
  match supplied with
  | none => some "Incident analysis completed by agent."
  | some c =>
      if c = "" then
        match fallback with
        | Except.ok t => some t
        | Except.error _ => some ""
      else some c

/-- The error, if any, a run raises after a finish decision: only the
empty-supplied-conclusion path can raise, through the fallback summarizer. -/
def finishError (supplied : Option String) (fallback : Except String String) :
    Option RunError :=
  match supplied with
  | none => none
  | some c => if c = "" then summaryToError fallback else none

/-- A raw response that decodes to a continue decision the loop can fully
execute: not finishing, carrying a truthy action whose tool is a registry
key and whose args carry a service. -/
def isWellFormedContinue (r : Raw) : Bool :=
  match r with
  | Raw.invalid _ => false
  | Raw.decision d =>
      !truthyDone d.done &&
      (match d.action with
       | none => false
       | some a =>
           (match a.tool with
            | none => false
            | some t => (TOOLS.find? (fun p => p.1 == t)).isSome) &&
           (match a.args with
            | none => false
            | some args => args.service.isSome))

/-- The state after step 5-6 of one loop iteration executing tool `t` of
registry entry `pair` with service `svc`: one observation appended, the step
counter incremented. -/
def execState (env : ToolEnv) (state : AgentState) (d : DecisionDict) (t : String)
    (args : ArgsDict) (svc : String)
    (pair : String × (ToolEnv → String → ToolResult)) : AgentState :=
  { state with
    observations := state.observations ++
      [{ step := state.steps + 1
         thought := d.thought
         tool := t
         args := args
         result := pair.2 env svc }]
    steps := state.steps + 1 }

/-! ## Concrete instances used as test inputs -/

/-- A backing-data environment with no record for any service. -/
def env0 : ToolEnv :=
  { metricsData := fun _ => none
    logsData := fun _ => none
    deploymentsData := fun _ => none
    dependenciesData := fun _ => none }

/-- A backing-data environment whose dependency file has one record for
"checkout-service", with "payments-api" degraded. -/
def depsEnv : ToolEnv :=
  { metricsData := fun _ => none
    logsData := fun _ => none
    deploymentsData := fun _ => none
    dependenciesData := fun s =>
      if s = "checkout-service" then
        some { depends_on := ["payments-api"]
               dependency_health := [("payments-api", "degraded")] }
      else none }

/-- The observation produced by running `check_dependencies` on that data. -/
def depObs : Observation :=
  { step := 1
    thought := none
    tool := "check_dependencies"
    args := { service := some "checkout-service" }
    result := check_dependencies depsEnv "checkout-service" }

/-- The observation produced by `check_metrics` when the service has no
metrics record: its result is the data-not-found dict. -/
def metricsNotFoundObs : Observation :=
  { step := 1
    thought := none
    tool := "check_metrics"
    args := { service := some "checkout-service" }
    result := check_metrics env0 "checkout-service" }

/-- An oracle that immediately finishes with an empty conclusion string. -/
def finishEmptyOracle : AgentState → Raw :=
  fun _ => Raw.decision { done := some true, conclusion := some "" }

/-- An oracle that immediately finishes with a non-empty conclusion. -/
def finishTextOracle : AgentState → Raw :=
  fun _ => Raw.decision { done := some true, conclusion := some "All good" }

/-- An oracle that finishes without supplying a conclusion key. -/
def finishAbsentOracle : AgentState → Raw :=
  fun _ => Raw.decision { done := some true }

/-- An oracle whose JSON decodes to an empty dict: neither a continue nor a
finish shape. -/
def emptyDecisionOracle : AgentState → Raw :=
  fun _ => Raw.decision {}

/-- An oracle whose output is not valid JSON. -/
def invalidOracle : AgentState → Raw :=
  fun _ => Raw.invalid "not json"

/-- An oracle requesting a tool outside the fixed registry. -/
def badToolOracle : AgentState → Raw :=
  fun _ => Raw.decision
    { action := some { tool := some "restart_service"
                       args := some { service := some "checkout-service" } } }

/-- An oracle that always requests `check_deployments` for the subject
service: a well-formed continue decision at every step. -/
def deployOracle : AgentState → Raw :=
  fun state => Raw.decision
    { thought := some "check deployments"
      action := some { tool := some "check_deployments"
                       args := some { service := some state.service } } }

/-- An oracle that always requests `check_metrics` for the subject service. -/
def metricsOracle : AgentState → Raw :=
  fun state => Raw.decision
    { thought := some "check metrics"
      action := some { tool := some "check_metrics"
                       args := some { service := some state.service } } }

/-! ## Claim C1: the evidence policy rule -/

/-- C1: `_enough_evidence` returns true iff the set of distinct tool names
in the history contains both "check_metrics" and "check_logs" and has at
least 3 elements; false otherwise, regardless of the history's length. -/
theorem enough_evidence_iff (observations : List Observation) :
    enough_evidence observations = true ↔
      ("check_metrics" ∈ (observations.map Observation.tool).toFinset ∧
       "check_logs" ∈ (observations.map Observation.tool).toFinset ∧
       3 ≤ (observations.map Observation.tool).toFinset.card) := by
  unfold enough_evidence
  simp [List.card_toFinset, List.mem_dedup]
  exact and_assoc

/-! ## Claim C8: tool behavior on missing backing data -/

/-- C8 counterexample: the claim fails for `check_logs`, which treats a
service with no record as having an empty log list and returns `ok = true`
with no error description. -/
theorem check_logs_missing_data_returns_ok :
    env0.logsData "checkout-service" = none ∧
    (check_logs env0 "checkout-service").ok = true ∧
    (check_logs env0 "checkout-service").error = none :=
  ⟨rfl, rfl, rfl⟩

/-- C8 amended: for `check_metrics`, `check_deployments` and
`check_dependencies`, a service with no record in the backing data yields a
non-raising structured result with `ok = false` and an error description;
`check_logs` instead defaults the missing record to an empty log list and
returns `ok = true` with `error_count = 0`. -/
theorem tool_data_not_found (env : ToolEnv) (service : String) :
    (env.metricsData service = none →
      check_metrics env service = { ok := false, error := some "Service not found" }) ∧
    (env.deploymentsData service = none →
      check_deployments env service = { ok := false, error := some "No deployment info" }) ∧
    (env.dependenciesData service = none →
      check_dependencies env service = { ok := false, error := some "No dependency data" }) ∧
    (env.logsData service = none →
      check_logs env service =
        { ok := true, service := some service, error_count := some 0,
          recent_errors := some [] }) := by
  refine ⟨fun h => ?_, fun h => ?_, fun h => ?_, fun h => ?_⟩
  · unfold check_metrics; rw [h]
  · unfold check_deployments; rw [h]
  · unfold check_dependencies; rw [h]
  · unfold check_logs; rw [h]; rfl

/-- C8 witness: the amended behavior at a concrete environment with no
records. -/
theorem tool_data_not_found_witness :
    check_metrics env0 "checkout-service" =
      { ok := false, error := some "Service not found" } ∧
    check_logs env0 "checkout-service" =
      { ok := true, service := some "checkout-service", error_count := some 0,
        recent_errors := some [] } :=
  ⟨(tool_data_not_found env0 "checkout-service").1 rfl,
   (tool_data_not_found env0 "checkout-service").2.2.2 rfl⟩

/-! ## Claim C9: the degraded-dependency summary -/

/-- C9 counterexample: on the single-observation history with
`degraded_dependencies = ["payments-api"]`, the summarizer's output has no
trailing period, so it differs from the string the claim demands. -/
theorem summarize_degraded_dependency_no_period :
    (check_dependencies depsEnv "checkout-service").degraded_dependencies
      = some ["payments-api"] ∧
    summarize [depObs] ≠
      Except.ok "Likely root cause: Degraded dependency: payments-api." := by
  refine ⟨rfl, fun h => ?_⟩
  rw [show summarize [depObs]
      = Except.ok "Likely root cause: Degraded dependency: payments-api" from rfl] at h
  exact absurd (Except.ok.inj h) (by decide)

/-- C9 amended: the summarizer returns exactly
"Likely root cause: Degraded dependency: payments-api" (byte-identical,
with no trailing period) on that history. -/
theorem summarize_degraded_dependency :
    summarize [depObs]
      = Except.ok "Likely root cause: Degraded dependency: payments-api" := rfl

/-! ## Claim C10: the summarizer is not total over loop-producible histories -/

/-- An observation whose tool is "check_metrics" but whose result dict lacks
the "metrics" key makes `_summarize`'s per-observation clause raise. -/
theorem clausesOf_bad_metrics {o : Observation} (htool : o.tool = "check_metrics")
    (hm : o.result.metrics = none) : clausesOf o = Except.error "metrics" := by
  unfold clausesOf
  rw [if_pos htool, hm]

/-- Any history containing such an observation makes the summary fold fail. -/
theorem clauses_error_of_bad_metrics {l : List Observation} {o : Observation}
    (ho : o ∈ l) (htool : o.tool = "check_metrics")
    (hm : o.result.metrics = none) :
    ∃ k, clauses l = Except.error k := by
  induction l with
  | nil => cases ho
  | cons x xs ih =>
      rcases List.mem_cons.mp ho with hx | hxs
      · subst hx
        exact ⟨"metrics", by unfold clauses; rw [clausesOf_bad_metrics htool hm]⟩
      · cases hcx : clausesOf x with
        | error k => exact ⟨k, by unfold clauses; rw [hcx]⟩
        | ok cs =>
            obtain ⟨k, hk⟩ := ih hxs
            exact ⟨k, by unfold clauses; rw [hcx, hk]⟩

/-- C10: `check_metrics` on a service with no metrics record returns the
data-not-found dict, which lacks the "metrics" key; `_summarize` raises a
`KeyError` on every history containing such an observation, so the forced or
fallback conclusion step fails for such runs instead of returning a summary
string. -/
theorem summarize_keyerror_on_missing_metrics (env : ToolEnv) (service : String)
    (hm : env.metricsData service = none)
    (observations : List Observation) (o : Observation)
    (ho : o ∈ observations) (htool : o.tool = "check_metrics")
    (hres : o.result = check_metrics env service) :
    (check_metrics env service).ok = false ∧
    (check_metrics env service).metrics = none ∧
    raisesKeyError (summarize observations) = true := by
  have hcm : check_metrics env service = { ok := false, error := some "Service not found" } := by
    unfold check_metrics; rw [hm]
  refine ⟨by rw [hcm], by rw [hcm], ?_⟩
  obtain ⟨k, hk⟩ := clauses_error_of_bad_metrics ho htool (by rw [hres, hcm])
  unfold summarize
  rw [hk]
  rfl

/-- C10 witness: the single-observation history recording `check_metrics`
against an empty environment makes the summarizer raise. -/
theorem summarize_keyerror_witness :
    (check_metrics env0 "checkout-service").ok = false ∧
    (check_metrics env0 "checkout-service").metrics = none ∧
    raisesKeyError (summarize [metricsNotFoundObs]) = true :=
  summarize_keyerror_on_missing_metrics env0 "checkout-service" rfl
    [metricsNotFoundObs] metricsNotFoundObs (List.mem_singleton.mpr rfl) rfl rfl

/-! ## One-iteration lemmas for the loop -/

/-- Unfolding the loop once when its condition holds. -/
theorem runLoop_first (env : ToolEnv) (oracle : AgentState → Raw) (max_steps : Nat)
    (state : AgentState) (hdone : state.done = false)
    (hlt : state.steps < max_steps) :
    runLoop env oracle max_steps (max_steps - state.steps) state =
      match runStep env oracle state with
      | StepOutcome.exitLoop s => (s, none)
      | StepOutcome.fatal s e => (s, some e)
      | StepOutcome.next s =>
          runLoop env oracle max_steps (max_steps - state.steps - 1) s := by
  generalize hgen : max_steps - state.steps - 1 = k
  have hk : max_steps - state.steps = k + 1 := by omega
  rw [hk]
  conv_lhs => rw [runLoop]
  rw [if_neg (by simp [hdone, hlt])]

/-- The iteration body on a model response that fails JSON decoding. -/
theorem runStep_invalid (env : ToolEnv) (oracle : AgentState → Raw)
    (state : AgentState) (text : String) (hor : oracle state = Raw.invalid text) :
    runStep env oracle state = StepOutcome.fatal state
      (RunError.valueError ("Invalid JSON from model:\n" ++ text)) := by
  unfold runStep
  rw [hor]

/-- The iteration body on a finish decision. -/
theorem runStep_finish (env : ToolEnv) (oracle : AgentState → Raw)
    (state : AgentState) (d : DecisionDict) (hor : oracle state = Raw.decision d)
    (hfin : truthyDone d.done = true) :
    runStep env oracle state = StepOutcome.exitLoop
      { state with
        done := true
        conclusion :=
          some (d.conclusion.getD "Incident analysis completed by agent.") } := by
  unfold runStep
  rw [hor]
  simp [hfin]

/-- The iteration body on a decision with neither a truthy done flag nor a
truthy action: the defensive guardrail leaves the loop with no error. -/
theorem runStep_guardrail (env : ToolEnv) (oracle : AgentState → Raw)
    (state : AgentState) (d : DecisionDict) (hor : oracle state = Raw.decision d)
    (hfin : truthyDone d.done = false) (hact : actionTruthy d.action = false) :
    runStep env oracle state = StepOutcome.exitLoop state := by
  unfold runStep
  rw [hor]
  simp only [hfin, Bool.false_eq_true, if_false]
  cases ha : d.action with
  | none => rfl
  | some a =>
      rw [ha] at hact
      simp only [actionTruthy] at hact
      simp [hact]

/-- The iteration body on a continue decision whose tool name resolves to no
registry entry: a fatal error with the state unchanged. -/
theorem runStep_unknown_tool (env : ToolEnv) (oracle : AgentState → Raw)
    (state : AgentState) (d : DecisionDict) (a : ActionDict)
    (hor : oracle state = Raw.decision d) (hfin : truthyDone d.done = false)
    (ha : d.action = some a) (hat : a.isTruthy = true)
    (hnf : ∀ t, a.tool = some t → TOOLS.find? (fun p => p.1 == t) = none) :
    runStep env oracle state = StepOutcome.fatal state
      (RunError.valueError
        ("Unknown tool requested by agent: " ++ optToolStr a.tool)) := by
  unfold runStep
  rw [hor]
  simp only [hfin, Bool.false_eq_true, if_false, ha]
  rw [if_neg (by simp [hat])]
  cases ht : a.tool with
  | none => rfl
  | some t =>
      dsimp only
      rw [hnf t ht]
      rfl

/-- The iteration body on a fully executable continue decision: the tool
runs, an observation is appended, the step counter is incremented, and the
evidence policy decides whether the loop stops. -/
theorem runStep_exec (env : ToolEnv) (oracle : AgentState → Raw)
    (state : AgentState) (d : DecisionDict) (a : ActionDict) (t : String)
    (args : ArgsDict) (svc : String)
    (pair : String × (ToolEnv → String → ToolResult))
    (hor : oracle state = Raw.decision d) (hfin : truthyDone d.done = false)
    (ha : d.action = some a) (ht : a.tool = some t)
    (hfind : TOOLS.find? (fun p => p.1 == t) = some pair)
    (hargs : a.args = some args) (hsvc : args.service = some svc) :
    runStep env oracle state =
      (if enough_evidence (execState env state d t args svc pair).observations then
        match summarize (execState env state d t args svc pair).observations with
        | Except.error k =>
            StepOutcome.fatal { execState env state d t args svc pair with done := true }
              (RunError.keyError k)
        | Except.ok c =>
            StepOutcome.exitLoop
              { execState env state d t args svc pair with
                done := true
                conclusion := some c }
      else StepOutcome.next (execState env state d t args svc pair)) := by
  unfold runStep
  rw [hor]
  simp only [hfin, Bool.false_eq_true, if_false, ha]
  rw [if_neg (by simp [ActionDict.isTruthy, ht])]
  rw [ht]
  dsimp only
  rw [hfind]
  dsimp only
  rw [hargs]
  simp only [Option.getD_some]
  rw [hsvc]
  rfl

/-- Characterization of `run` when the first iteration leaves the loop by a
fatal error. -/
theorem run_fatal_first (env : ToolEnv) (oracle : AgentState → Raw)
    (state : AgentState) (max_steps : Nat) (s : AgentState) (e : RunError)
    (hdone : state.done = false) (hlt : state.steps < max_steps)
    (hstep : runStep env oracle state = StepOutcome.fatal s e) :
    run env oracle state max_steps = (s, some e) := by
  unfold run
  rw [runLoop_first env oracle max_steps state hdone hlt, hstep]

/-- Characterization of `run` when the first iteration leaves the loop
normally: only the final conclusion fallback remains. -/
theorem run_exit_first (env : ToolEnv) (oracle : AgentState → Raw)
    (state : AgentState) (max_steps : Nat) (s : AgentState)
    (hdone : state.done = false) (hlt : state.steps < max_steps)
    (hstep : runStep env oracle state = StepOutcome.exitLoop s) :
    run env oracle state max_steps =
      (if truthyOpt s.conclusion then (s, none)
       else match summarize s.observations with
         | Except.error k => (s, some (RunError.keyError k))
         | Except.ok c => ({ s with conclusion := some c }, none)) := by
  unfold run
  rw [runLoop_first env oracle max_steps state hdone hlt, hstep]

/-! ## Claim C6: unknown tool names are fatal before execution -/

/-- C6: a continue decision whose tool name is not a key of the fixed tool
registry raises a fatal integration error, with the state unchanged — in
particular no observation is appended, so no tool was executed in that
step. -/
theorem unknown_tool_fatal (env : ToolEnv) (oracle : AgentState → Raw)
    (state : AgentState) (max_steps : Nat) (d : DecisionDict) (a : ActionDict)
    (hdone : state.done = false) (hlt : state.steps < max_steps)
    (hor : oracle state = Raw.decision d) (hfin : truthyDone d.done = false)
    (ha : d.action = some a) (hat : a.isTruthy = true)
    (hnf : ∀ t, a.tool = some t → TOOLS.find? (fun p => p.1 == t) = none) :
    run env oracle state max_steps =
      (state, some (RunError.valueError
        ("Unknown tool requested by agent: " ++ optToolStr a.tool))) :=
  run_fatal_first env oracle state max_steps state _ hdone hlt
    (runStep_unknown_tool env oracle state d a hor hfin ha hat hnf)

/-- C6 witness: requesting the unregistered tool "restart_service" on the
first step raises the integration error and executes nothing. -/
theorem unknown_tool_fatal_witness :
    run env0 badToolOracle (AgentState.init "g" "s") 6 =
      (AgentState.init "g" "s",
       some (RunError.valueError "Unknown tool requested by agent: restart_service")) :=
  unknown_tool_fatal env0 badToolOracle (AgentState.init "g" "s") 6
    { action := some { tool := some "restart_service"
                       args := some { service := some "checkout-service" } } }
    { tool := some "restart_service"
      args := some { service := some "checkout-service" } }
    rfl (by decide) rfl rfl rfl rfl
    (fun t ht => by injection ht with h2; subst h2; rfl)

/-! ## Claim C7: malformed model responses -/

/-- C7 counterexample: a response decoding to an empty JSON record (neither
of the two decision shapes) does not fail the run — the defensive guardrail
breaks the loop silently and the fallback supplies a conclusion. -/
theorem malformed_decision_not_fatal :
    (run env0 emptyDecisionOracle (AgentState.init "g" "s") 6).2 = none ∧
    (run env0 emptyDecisionOracle (AgentState.init "g" "s") 6).1.done = false ∧
    (run env0 emptyDecisionOracle (AgentState.init "g" "s") 6).1.conclusion
      = some "Likely root cause: " :=
  ⟨rfl, rfl, rfl⟩

/-- C7 amended: a raw response that fails JSON decoding raises a fatal error
surfaced with the offending raw text; but a response that decodes to JSON
matching neither decision shape (no truthy done flag and no truthy action)
makes the loop exit silently with no error and the state unchanged. -/
theorem parse_failure_fatal_guardrail_silent (env : ToolEnv)
    (oracle : AgentState → Raw) (state : AgentState) (max_steps fuel : Nat)
    (hdone : state.done = false) (hlt : state.steps < max_steps) :
    (∀ text, oracle state = Raw.invalid text →
      runLoop env oracle max_steps (fuel + 1) state =
        (state, some (RunError.valueError ("Invalid JSON from model:\n" ++ text)))) ∧
    (∀ d, oracle state = Raw.decision d → truthyDone d.done = false →
      actionTruthy d.action = false →
      runLoop env oracle max_steps (fuel + 1) state = (state, none)) := by
  constructor
  · intro text hor
    unfold runLoop
    rw [if_neg (by simp [hdone, hlt]), runStep_invalid env oracle state text hor]
  · intro d hor hfin hact
    unfold runLoop
    rw [if_neg (by simp [hdone, hlt]),
      runStep_guardrail env oracle state d hor hfin hact]

/-- C7 witness: invalid JSON on the first step fails the run with the
offending text in the error. -/
theorem parse_failure_fatal_witness :
    runLoop env0 invalidOracle 6 6 (AgentState.init "g" "s") =
      (AgentState.init "g" "s",
       some (RunError.valueError "Invalid JSON from model:\nnot json")) :=
  (parse_failure_fatal_guardrail_silent env0 invalidOracle
    (AgentState.init "g" "s") 6 5 rfl (by decide)).1 "not json" rfl

/-! ## Claim C3: finish decisions -/

/-- C3 counterexample: when the oracle finishes with conclusion text `""`,
the run's final conclusion is the fallback summary, not the default
placeholder the claim requires for an empty supplied conclusion (and not the
supplied text either). -/
theorem finish_empty_conclusion_not_placeholder :
    (run env0 finishEmptyOracle (AgentState.init "g" "s") 6).1.conclusion
      = some "Likely root cause: " ∧
    ("Likely root cause: " : String) ≠ "" ∧
    ("Likely root cause: " : String) ≠ "Incident analysis completed by agent." :=
  ⟨rfl, by decide, by decide⟩

/-- C3 amended: a finish decision stops the run within that step with
`done = true` and no tool executed; the conclusion is the supplied text when
non-empty, the default placeholder when the conclusion key is absent, and —
when the supplied text is the empty string — whatever the fallback
summarizer produces over the accumulated observations (raising its
`KeyError` if the summarizer fails). -/
theorem finish_decision_stops (env : ToolEnv) (oracle : AgentState → Raw)
    (state : AgentState) (max_steps : Nat) (d : DecisionDict)
    (hdone : state.done = false) (hlt : state.steps < max_steps)
    (hor : oracle state = Raw.decision d) (hfin : truthyDone d.done = true) :
    (run env oracle state max_steps).1.done = true ∧
    (run env oracle state max_steps).1.observations = state.observations ∧
    (run env oracle state max_steps).1.steps = state.steps ∧
    (run env oracle state max_steps).1.conclusion
      = finishConclusion d.conclusion (summarize state.observations) ∧
    (run env oracle state max_steps).2
      = finishError d.conclusion (summarize state.observations) := by
  have hrun := run_exit_first env oracle state max_steps _ hdone hlt
    (runStep_finish env oracle state d hor hfin)
  rw [hrun]
  dsimp only
  cases hc : d.conclusion with
  | none =>
      rw [if_pos
        (show truthyOpt (some ((none : Option String).getD
          "Incident analysis completed by agent.")) = true from rfl)]
      exact ⟨rfl, rfl, rfl, rfl, rfl⟩
  | some c =>
      by_cases hce : c = ""
      · subst hce
        rw [if_neg (show ¬ truthyOpt (some (Option.getD (some "")
          "Incident analysis completed by agent.")) = true by decide)]
        cases hsum : summarize state.observations with
        | error k =>
            rw [show finishConclusion (some "") (Except.error k) = some "" from rfl,
              show finishError (some "") (Except.error k)
                = some (RunError.keyError k) from rfl]
            exact ⟨rfl, rfl, rfl, rfl, rfl⟩
        | ok t =>
            rw [show finishConclusion (some "") (Except.ok t) = some t from rfl,
              show finishError (some "") (Except.ok t) = none from rfl]
            exact ⟨rfl, rfl, rfl, rfl, rfl⟩
      · have hne : c.isEmpty = false := by
          cases hie : c.isEmpty
          · rfl
          · exact absurd ((String.isEmpty_iff c).mp hie) hce
        have htr : truthyOpt (some (Option.getD (some c)
            "Incident analysis completed by agent.")) = true := by
          simp [truthyOpt, hne]
        rw [if_pos htr]
        refine ⟨rfl, rfl, rfl, ?_, ?_⟩
        · simp [finishConclusion, hce]
        · simp [finishError, hce]

/-- C3 witness: finishing with the non-empty conclusion "All good" on the
first step returns exactly that conclusion with no error. -/
theorem finish_decision_stops_witness :
    (run env0 finishTextOracle (AgentState.init "g" "s") 6).1.done = true ∧
    (run env0 finishTextOracle (AgentState.init "g" "s") 6).1.conclusion
      = some "All good" ∧
    (run env0 finishTextOracle (AgentState.init "g" "s") 6).2 = none := by
  have h := finish_decision_stops env0 finishTextOracle (AgentState.init "g" "s") 6
    { done := some true, conclusion := some "All good" } rfl (by decide) rfl rfl
  exact ⟨h.1, h.2.2.2.1.trans (by decide), h.2.2.2.2.trans (by decide)⟩

/-! ## Shape lemmas for whole-run inductions -/

/-- One iteration either leaves observations and the step counter untouched,
or appends exactly one observation while incrementing the counter by one. -/
theorem runStep_state_shape (env : ToolEnv) (oracle : AgentState → Raw)
    (state : AgentState) :
    ((runStep env oracle state).state.observations = state.observations ∧
     (runStep env oracle state).state.steps = state.steps) ∨
    ((runStep env oracle state).state.steps = state.steps + 1 ∧
     ∃ obs, (runStep env oracle state).state.observations
       = state.observations ++ [obs]) := by
  unfold runStep
  dsimp only
  repeat' split
  all_goals
    first
      | exact Or.inl ⟨rfl, rfl⟩
      | exact Or.inr ⟨rfl, _, rfl⟩

/-- The projections of the final state of `run` agree with those of the
loop's final state: the conclusion fallback touches nothing else. -/
theorem run_fst_eq (env : ToolEnv) (oracle : AgentState → Raw)
    (state : AgentState) (max_steps : Nat) :
    (run env oracle state max_steps).1.observations =
      (runLoop env oracle max_steps (max_steps - state.steps) state).1.observations ∧
    (run env oracle state max_steps).1.steps =
      (runLoop env oracle max_steps (max_steps - state.steps) state).1.steps ∧
    (run env oracle state max_steps).1.done =
      (runLoop env oracle max_steps (max_steps - state.steps) state).1.done := by
  unfold run
  cases hl : runLoop env oracle max_steps (max_steps - state.steps) state with
  | mk s e =>
      cases e with
      | none =>
          dsimp only
          split
          · exact ⟨rfl, rfl, rfl⟩
          · split <;> exact ⟨rfl, rfl, rfl⟩
      | some err => exact ⟨rfl, rfl, rfl⟩

/-- The loop preserves the synchronization of the observation count with the
step counter: this is the "after every completed step" invariant, stated for
every reachable loop state. -/
theorem runLoop_sync (env : ToolEnv) (oracle : AgentState → Raw)
    (max_steps : Nat) :
    ∀ fuel state, state.observations.length = state.steps →
      (runLoop env oracle max_steps fuel state).1.observations.length =
        (runLoop env oracle max_steps fuel state).1.steps := by
  intro fuel
  induction fuel with
  | zero => intro state h; exact h
  | succ n ih =>
      intro state h
      rw [runLoop]
      split
      · exact h
      · cases hs : runStep env oracle state with
        | exitLoop s =>
            have shape := runStep_state_shape env oracle state
            rw [hs] at shape
            rcases shape with ⟨ho, hst⟩ | ⟨hst, obs, ho⟩
            · dsimp only [StepOutcome.state] at ho hst
              dsimp only
              rw [ho, hst]
              exact h
            · dsimp only [StepOutcome.state] at ho hst
              dsimp only
              rw [ho, hst]
              simp [h]
        | fatal s e =>
            have shape := runStep_state_shape env oracle state
            rw [hs] at shape
            rcases shape with ⟨ho, hst⟩ | ⟨hst, obs, ho⟩
            · dsimp only [StepOutcome.state] at ho hst
              dsimp only
              rw [ho, hst]
              exact h
            · dsimp only [StepOutcome.state] at ho hst
              dsimp only
              rw [ho, hst]
              simp [h]
        | next s =>
            have shape := runStep_state_shape env oracle state
            rw [hs] at shape
            rcases shape with ⟨ho, hst⟩ | ⟨hst, obs, ho⟩
            · dsimp only [StepOutcome.state] at ho hst
              exact ih s (by rw [ho, hst]; exact h)
            · dsimp only [StepOutcome.state] at ho hst
              exact ih s (by rw [ho, hst]; simp [h])

/-- The loop never pushes the step counter past the budget. -/
theorem runLoop_steps_le (env : ToolEnv) (oracle : AgentState → Raw)
    (max_steps : Nat) :
    ∀ fuel state, state.steps ≤ max_steps →
      (runLoop env oracle max_steps fuel state).1.steps ≤ max_steps := by
  intro fuel
  induction fuel with
  | zero => intro state h; exact h
  | succ n ih =>
      intro state h
      rw [runLoop]
      split
      · exact h
      · rename_i hcond
        have hlt : state.steps < max_steps := by
          rcases not_or.mp hcond with ⟨h1, h2⟩
          omega
        cases hs : runStep env oracle state with
        | exitLoop s =>
            have shape := runStep_state_shape env oracle state
            rw [hs] at shape
            rcases shape with ⟨ho, hst⟩ | ⟨hst, obs, ho⟩ <;>
              (dsimp only [StepOutcome.state] at hst; dsimp only; omega)
        | fatal s e =>
            have shape := runStep_state_shape env oracle state
            rw [hs] at shape
            rcases shape with ⟨ho, hst⟩ | ⟨hst, obs, ho⟩ <;>
              (dsimp only [StepOutcome.state] at hst; dsimp only; omega)
        | next s =>
            have shape := runStep_state_shape env oracle state
            rw [hs] at shape
            rcases shape with ⟨ho, hst⟩ | ⟨hst, obs, ho⟩ <;>
              (dsimp only [StepOutcome.state] at hst; exact ih s (by omega))

/-! ## Claim C2: step budget and observation-count invariants -/

/-- C2: from a freshly constructed state, every run keeps
`observations.length = steps` (and the loop preserves this invariant from
every reachable state, i.e. after every completed step), performs at most
`max_steps` tool executions (each of which increments `steps` by one), and
never grows `observations` beyond `max_steps`. -/
theorem step_budget_invariants (env : ToolEnv) (oracle : AgentState → Raw)
    (goal service : String) (max_steps : Nat) :
    (∀ fuel st, st.observations.length = st.steps →
      (runLoop env oracle max_steps fuel st).1.observations.length =
        (runLoop env oracle max_steps fuel st).1.steps) ∧
    (run env oracle (AgentState.init goal service) max_steps).1.observations.length =
      (run env oracle (AgentState.init goal service) max_steps).1.steps ∧
    (run env oracle (AgentState.init goal service) max_steps).1.steps ≤ max_steps ∧
    (run env oracle (AgentState.init goal service) max_steps).1.observations.length
      ≤ max_steps := by
  obtain ⟨ho, hs, hd⟩ := run_fst_eq env oracle (AgentState.init goal service) max_steps
  have hsync := runLoop_sync env oracle max_steps
    (max_steps - (AgentState.init goal service).steps) (AgentState.init goal service) rfl
  have hle := runLoop_steps_le env oracle max_steps
    (max_steps - (AgentState.init goal service).steps) (AgentState.init goal service)
    (Nat.zero_le max_steps)
  refine ⟨runLoop_sync env oracle max_steps, ?_, ?_, ?_⟩
  · rw [ho, hs]; exact hsync
  · rw [hs]; exact hle
  · rw [ho, hsync]; exact hle

/-- C2 witness: the invariants at a concrete two-step run. -/
theorem step_budget_invariants_witness :
    (runLoop env0 deployOracle 2 2 (AgentState.init "g" "checkout-service")).1.observations.length =
      (runLoop env0 deployOracle 2 2 (AgentState.init "g" "checkout-service")).1.steps ∧
    (run env0 deployOracle (AgentState.init "g" "checkout-service") 2).1.steps ≤ 2 ∧
    (run env0 deployOracle (AgentState.init "g" "checkout-service") 2).1.observations.length ≤ 2 :=
  ⟨(step_budget_invariants env0 deployOracle "g" "checkout-service" 2).1 2
      (AgentState.init "g" "checkout-service") rfl,
   (step_budget_invariants env0 deployOracle "g" "checkout-service" 2).2.2.1,
   (step_budget_invariants env0 deployOracle "g" "checkout-service" 2).2.2.2⟩

/-! ## Claim C4: every non-raising run returns a non-empty conclusion -/

/-- A successful summary is never the empty string: it carries the fixed
"Likely root cause: " prefix. -/
theorem summarize_ok_not_empty (l : List Observation) (t : String)
    (h : summarize l = Except.ok t) : t.isEmpty = false := by
  unfold summarize at h
  cases hc : clauses l with
  | error k => rw [hc] at h; cases h
  | ok summary =>
      rw [hc] at h
      injection h with h2
      subst h2
      cases hie : ("Likely root cause: " ++ String.intercalate " " summary).isEmpty
      · rfl
      · exfalso
        have heq := (String.isEmpty_iff _).mp hie
        have hlen := congrArg String.length heq
        rw [String.length_append] at hlen
        have h19 : ("Likely root cause: " : String).length = 19 := by decide
        have h0 : ("" : String).length = 0 := by decide
        rw [h19, h0] at hlen
        omega

/-- C4: whatever exit path a run takes, if it terminates without raising
then its final conclusion is a non-empty string. -/
theorem run_conclusion_nonempty (env : ToolEnv) (oracle : AgentState → Raw)
    (state : AgentState) (max_steps : Nat)
    (h : (run env oracle state max_steps).2 = none) :
    truthyOpt (run env oracle state max_steps).1.conclusion = true := by
  unfold run at h ⊢
  cases hl : runLoop env oracle max_steps (max_steps - state.steps) state with
  | mk s e =>
      rw [hl] at h
      cases e with
      | some err => cases h
      | none =>
          dsimp only at h ⊢
          by_cases ht : truthyOpt s.conclusion = true
          · rw [if_pos ht] at h ⊢
            exact ht
          · rw [if_neg ht] at h ⊢
            cases hsum : summarize s.observations with
            | error k => rw [hsum] at h; cases h
            | ok c =>
                have hne := summarize_ok_not_empty s.observations c hsum
                simp [truthyOpt, hne]

/-- C4 witness: a run finishing through the placeholder conclusion. -/
theorem run_conclusion_nonempty_witness :
    truthyOpt (run env0 finishAbsentOracle (AgentState.init "g" "s") 6).1.conclusion
      = true :=
  run_conclusion_nonempty env0 finishAbsentOracle (AgentState.init "g" "s") 6 rfl

/-! ## Claim C5: budget exhaustion under a never-finishing oracle -/

/-- Destructuring a well-formed continue response into its components. -/
theorem wf_continue_elim (r : Raw) (h : isWellFormedContinue r = true) :
    ∃ d a t args svc pair, r = Raw.decision d ∧ truthyDone d.done = false ∧
      d.action = some a ∧ a.tool = some t ∧
      TOOLS.find? (fun p => p.1 == t) = some pair ∧
      a.args = some args ∧ args.service = some svc := by
  cases r with
  | invalid text => simp [isWellFormedContinue] at h
  | decision d =>
      unfold isWellFormedContinue at h
      rw [Bool.and_eq_true] at h
      obtain ⟨hdone, hrest⟩ := h
      cases ha : d.action with
      | none => rw [ha] at hrest; cases hrest
      | some a =>
          rw [ha] at hrest
          dsimp only at hrest
          rw [Bool.and_eq_true] at hrest
          obtain ⟨htool, hargs⟩ := hrest
          cases ht : a.tool with
          | none => rw [ht] at htool; cases htool
          | some t =>
              rw [ht] at htool
              dsimp only at htool
              obtain ⟨pair, hpair⟩ := Option.isSome_iff_exists.mp htool
              cases hag : a.args with
              | none => rw [hag] at hargs; cases hargs
              | some args =>
                  rw [hag] at hargs
                  dsimp only at hargs
                  obtain ⟨svc, hsvc⟩ := Option.isSome_iff_exists.mp hargs
                  exact ⟨d, a, t, args, svc, pair, rfl,
                    (by simpa using hdone), ha, ht, hpair, hag, hsvc⟩

/-- If every oracle response is a well-formed continue decision and the
evidence policy is false on the loop's final observations, the loop runs its
full budget down: it exits exactly at `steps = max_steps`, not done, with no
error and the starting conclusion untouched. -/
theorem runLoop_all_continue (env : ToolEnv) (oracle : AgentState → Raw)
    (max_steps : Nat)
    (hwf : ∀ st, isWellFormedContinue (oracle st) = true) :
    ∀ fuel state, state.done = false → state.steps + fuel = max_steps →
      enough_evidence (runLoop env oracle max_steps fuel state).1.observations = false →
      (runLoop env oracle max_steps fuel state).1.steps = max_steps ∧
      (runLoop env oracle max_steps fuel state).1.done = false ∧
      (runLoop env oracle max_steps fuel state).1.conclusion = state.conclusion ∧
      (runLoop env oracle max_steps fuel state).2 = none := by
  intro fuel
  induction fuel with
  | zero =>
      intro state hdone hsteps hpol
      refine ⟨?_, hdone, rfl, rfl⟩
      show state.steps = max_steps
      omega
  | succ n ih =>
      intro state hdone hsteps hpol
      have hlt : state.steps < max_steps := by omega
      rw [runLoop] at hpol ⊢
      rw [if_neg (by simp [hdone, hlt])] at hpol ⊢
      obtain ⟨d, a, t, args, svc, pair, hd, hfin, ha, ht, hfind, hargs, hsvc⟩ :=
        wf_continue_elim (oracle state) (hwf state)
      have hexec := runStep_exec env oracle state d a t args svc pair hd hfin
        ha ht hfind hargs hsvc
      rw [hexec] at hpol ⊢
      by_cases hee :
        enough_evidence (execState env state d t args svc pair).observations = true
      · rw [if_pos hee] at hpol ⊢
        exfalso
        cases hsum : summarize (execState env state d t args svc pair).observations with
        | error k =>
            rw [hsum] at hpol
            have hfalse : enough_evidence
                (execState env state d t args svc pair).observations = false := hpol
            exact absurd (hee.symm.trans hfalse) (by decide)
        | ok c =>
            rw [hsum] at hpol
            have hfalse : enough_evidence
                (execState env state d t args svc pair).observations = false := hpol
            exact absurd (hee.symm.trans hfalse) (by decide)
      · rw [if_neg hee] at hpol ⊢
        dsimp only at hpol ⊢
        have hsteps' : (execState env state d t args svc pair).steps + n = max_steps := by
          show state.steps + 1 + n = max_steps
          omega
        have ihres := ih (execState env state d t args svc pair) hdone hsteps' hpol
        exact ⟨ihres.1, ihres.2.1, ihres.2.2.1, ihres.2.2.2⟩

/-- C5: if the oracle never finishes (every response is a well-formed
continue decision) and the evidence policy never fires, the run from a fresh
state stops exactly at `steps = max_steps`, and its conclusion is exactly
what the summarizer produces on the accumulated observations — the summary
string when the summarizer succeeds, and the run instead raises its
`KeyError` when it fails. -/
theorem budget_exhaustion_summarize (env : ToolEnv) (oracle : AgentState → Raw)
    (goal service : String) (max_steps : Nat)
    (hwf : ∀ st, isWellFormedContinue (oracle st) = true)
    (hpol : enough_evidence
      (run env oracle (AgentState.init goal service) max_steps).1.observations = false) :
    (run env oracle (AgentState.init goal service) max_steps).1.steps = max_steps ∧
    (run env oracle (AgentState.init goal service) max_steps).1.done = false ∧
    (run env oracle (AgentState.init goal service) max_steps).1.conclusion =
      summaryToConclusion (summarize
        (run env oracle (AgentState.init goal service) max_steps).1.observations) ∧
    (run env oracle (AgentState.init goal service) max_steps).2 =
      summaryToError (summarize
        (run env oracle (AgentState.init goal service) max_steps).1.observations) := by
  obtain ⟨ho, hs, hd⟩ := run_fst_eq env oracle (AgentState.init goal service) max_steps
  rw [ho] at hpol
  have hloop := runLoop_all_continue env oracle max_steps hwf
    (max_steps - (AgentState.init goal service).steps) (AgentState.init goal service)
    rfl (by show 0 + (max_steps - 0) = max_steps; omega) hpol
  clear ho hs hd
  unfold run
  cases hl : runLoop env oracle max_steps
      (max_steps - (AgentState.init goal service).steps)
      (AgentState.init goal service) with
  | mk s e =>
      obtain ⟨hst, hdn, hcn, herr⟩ := hloop
      rw [hl] at hst hdn hcn herr hpol
      have herr2 : e = none := herr
      subst herr2
      dsimp only
      have hcn2 : s.conclusion = none := hcn.trans rfl
      rw [hcn2]
      rw [if_neg (by decide)]
      cases hsum : summarize s.observations with
      | error k =>
          dsimp only
          rw [hsum]
          exact ⟨hst, hdn, hcn2, rfl⟩
      | ok c =>
          dsimp only
          rw [hsum]
          exact ⟨hst, hdn, rfl, rfl⟩

/-- C5 witness: an oracle that always checks deployments exhausts a budget
of two steps and returns the deterministic two-clause summary. -/
theorem budget_exhaustion_summarize_witness :
    (run env0 deployOracle (AgentState.init "g" "checkout-service") 2).1.steps = 2 ∧
    (run env0 deployOracle (AgentState.init "g" "checkout-service") 2).1.conclusion =
      some "Likely root cause: Recent deployment detected. Recent deployment detected." := by
  have h := budget_exhaustion_summarize env0 deployOracle "g" "checkout-service" 2
    (fun st => rfl) rfl
  exact ⟨h.1, h.2.2.1.trans (by decide)⟩

end IncidentAgent
